import Mathlib

/-!
Verification of the drag-to-new-tab reordering engine of `tabbookmark.cc`.

Tab identities (`NodePtr.Get()` pointer values) are modelled as natural
numbers; a nullable `NodePtr` becomes `Option TabId`.  Window handles are
`Option Nat` (`none` = `nullptr`).  The mutable globals of the source file
(`drag_new_tab_state`, the two `UINT_PTR` timer handles, the restore ticket)
are collected in `GlobalState`; Win32 timers are modelled by a `Bool` flag
for "the handle variable is non-zero" plus a `Nat` counting how many timers
of that kind are actually outstanding in the scheduler, so that "at most one
outstanding timer" is a provable property rather than one true by type
construction.  Accessibility queries (`GetTopContainerView`, `GetTabs`,
`GetSelectedTab`, `SelectTab` success) are inputs supplied by environment
records, one per query point, reflecting the host state at the moment of the
call.  Issued host commands are collected in a `List Cmd`.
-/

/-- An opaque, stable tab identity (the value of `NodePtr::Get()`). -/
abbrev TabId := Nat

/-- Host commands issued by the engine (`ExecuteCommand(IDC_MOVE_TAB_NEXT, hwnd)`
and the accessibility action `SelectTab(tab)`). -/
inductive Cmd where
  | moveTabNext : Option Nat → Cmd
  | selectTab : TabId → Cmd
deriving DecidableEq

/-- The engine's session record, `struct DragNewTabState` of `tabbookmark.cc`. -/
structure DragNewTabState where
  mode : Int
  hwnd : Option Nat
  drop_point : Int × Int
  start_tab_count : Int
  start_selected_tab : Option TabId
  start_selected_index : Int
  start_tabs : List TabId
  check_attempts : Int
  armed : Bool
  pending : Bool
deriving DecidableEq

/-- The field values of a default-constructed / fully reset `DragNewTabState`. -/
def emptyDragState : DragNewTabState :=
  { mode := 0, hwnd := none, drop_point := (-1, -1), start_tab_count := 0,
    start_selected_tab := none, start_selected_index := -1, start_tabs := [],
    check_attempts := 0, armed := false, pending := false }

/-- All engine-owned mutable globals: the session record, the poll timer
(`drag_new_tab_timer`), the restore timer (`drag_new_tab_restore_timer`) and
the restore ticket.  For each timer kind, `...Handle` says whether the handle
variable is non-zero and `...Live` counts outstanding scheduler timers; the
`...IntervalMs` field records the interval the last `SetTimer` used. -/
structure GlobalState where
  st : DragNewTabState
  pollHandle : Bool
  pollLive : Nat
  pollIntervalMs : Nat
  restoreHandle : Bool
  restoreLive : Nat
  restoreIntervalMs : Nat
  restore_tab : Option TabId
  restore_attempts : Int
deriving DecidableEq

/-- The process-start values of the globals. -/
def initialGlobal : GlobalState :=
  { st := emptyDragState, pollHandle := false, pollLive := 0, pollIntervalMs := 0,
    restoreHandle := false, restoreLive := 0, restoreIntervalMs := 0,
    restore_tab := none, restore_attempts := 0 }

def kDragNewTabCheckIntervalMs : Nat := 80
def kDragNewTabMaxAttempts : Int := 12
def kDragNewTabRestoreAttempts : Int := 4

/-- `if (drag_new_tab_timer != 0) { KillTimer(...); drag_new_tab_timer = 0; }` -/
def killPollTimer (g : GlobalState) : GlobalState :=
  if g.pollHandle then
    { g with pollHandle := false, pollLive := g.pollLive - 1 }
  else g

/-- `drag_new_tab_timer = SetTimer(nullptr, 0, kDragNewTabCheckIntervalMs, ...)` -/
def setPollTimer (g : GlobalState) : GlobalState :=
  { g with pollHandle := true, pollLive := g.pollLive + 1,
           pollIntervalMs := kDragNewTabCheckIntervalMs }

/-- `if (drag_new_tab_restore_timer != 0) { KillTimer(...); ... = 0; }` -/
def killRestoreTimer (g : GlobalState) : GlobalState :=
  if g.restoreHandle then
    { g with restoreHandle := false, restoreLive := g.restoreLive - 1 }
  else g

/-- The restore timer proc's own-cancel sequence: `KillTimer(nullptr, timer_id);
drag_new_tab_restore_timer = 0; drag_new_tab_restore_tab = nullptr;` — the
firing timer itself is killed, so the live count drops unconditionally. -/
def killFiringRestore (g : GlobalState) : GlobalState :=
  { g with restoreHandle := false, restoreLive := g.restoreLive - 1,
           restore_tab := none }

/-- `ResetDragNewTabState()` of `tabbookmark.cc`: clears every session field
and cancels the restore timer and ticket.  It does not touch the poll timer. -/
def ResetDragNewTabState (g : GlobalState) : GlobalState :=
  let g1 := { g with st := emptyDragState }
  let g2 := killRestoreTimer g1
  { g2 with restore_tab := none, restore_attempts := 0 }

/-- The scan loop of `GetTabIndex`: first index whose identity equals the
target, `-1` when absent. -/
def tabIndexAux (t : TabId) : List TabId → Int
  | [] => -1
  | x :: xs =>
    if x = t then 0
    else
      let r := tabIndexAux t xs
      if r < 0 then -1 else r + 1

/-- `GetTabIndex(tabs, target_tab)` of `tabbookmark.cc`. -/
def GetTabIndex (tabs : List TabId) (target : Option TabId) : Int :=
  match target with
  | none => -1
  | some t => tabIndexAux t tabs

/-- `IsTabInList(tabs, target_tab)` of `tabbookmark.cc`. -/
def IsTabInList (tabs : List TabId) (target : Option TabId) : Bool :=
  0 ≤ GetTabIndex tabs target

/-- `GetTabByIndex(tabs, index)` of `tabbookmark.cc`: `nullptr` when the index
is out of range, otherwise `tabs[index]`. -/
def GetTabByIndex (tabs : List TabId) (index : Int) : Option TabId :=
  if index < 0 ∨ (tabs.length : Int) ≤ index then none
  else tabs.get? index.toNat

/-- `GetMoveStepsToEnd(tabs, target_tab)` of `tabbookmark.cc`. -/
def GetMoveStepsToEnd (tabs : List TabId) (target : Option TabId) : Int :=
  let index := GetTabIndex tabs target
  if index < 0 then 0
  else
    let last := (tabs.length : Int) - 1
    if index < last then last - index else 0

/-- `FindNewTabAfterDrag(tabs)` of `tabbookmark.cc`, with the start snapshot
passed explicitly: the first tab of the current list whose identity is absent
from the start snapshot; `nullptr` when the snapshot is empty or no tab is
absent from it. -/
def FindNewTabAfterDrag (start_tabs tabs : List TabId) : Option TabId :=
  if start_tabs.isEmpty then none
  else tabs.find? (fun tab => !(start_tabs.any (fun old => tab == old)))

/-- `ResolveRestoreTab(tabs)` of `tabbookmark.cc`: prefer the original
selected tab's identity if still present, else the tab now occupying the
original selected index. -/
def ResolveRestoreTab (st : DragNewTabState) (tabs : List TabId) : Option TabId :=
  match st.start_selected_tab with
  | some t =>
    let index := GetTabIndex tabs (some t)
    if 0 ≤ index then GetTabByIndex tabs index
    else GetTabByIndex tabs st.start_selected_index
  | none => GetTabByIndex tabs st.start_selected_index

/-- `MoveSelectedTabToEnd(hwnd, steps)` of `tabbookmark.cc`: the list of
`IDC_MOVE_TAB_NEXT` commands it issues. -/
def MoveSelectedTabToEnd (hwnd : Option Nat) (steps : Int) : List Cmd :=
  if hwnd = none ∨ steps ≤ 0 then []
  else List.replicate steps.toNat (Cmd.moveTabNext hwnd)

/-- The new-tab identification of the poll proc (lines 415-419): the snapshot
diff, falling back to the currently selected tab when it is absent from the
start snapshot. -/
def pollNewTab (start_tabs tabs : List TabId) (selected : Option TabId) : Option TabId :=
  match FindNewTabAfterDrag start_tabs tabs with
  | some t => some t
  | none =>
    match selected with
    | some s => if IsTabInList start_tabs (some s) then none else some s
    | none => none

/-- The boolean result of the poll proc's `ensure_selected` lambda, given the
environment's answers: already-selected short-circuits, otherwise the
`SelectTab` return value and the re-queried selection decide. -/
def ensureSelectedOk (selected : Option TabId) (select_ok : Bool)
    (selected_after : Option TabId) (t : TabId) : Bool :=
  if selected = some t then true
  else if select_ok = false then false
  else selected_after == some t

/-- The commands the `ensure_selected` lambda issues. -/
def ensureSelectedCmds (selected : Option TabId) (t : TabId) : List Cmd :=
  if selected = some t then [] else [Cmd.selectTab t]

/-- The poll cycle's terminal clearing (lines 467-470): exactly `pending`,
`check_attempts`, `start_tabs` and `armed`. -/
def finishDragSession (g : GlobalState) : GlobalState :=
  { g with st := { g.st with pending := false, check_attempts := 0,
                             start_tabs := [], armed := false } }

/-- `QueueDragNewTabRestore(tab)` of `tabbookmark.cc`. -/
def QueueDragNewTabRestore (g : GlobalState) (tab : Option TabId) : GlobalState :=
  let g1 := killRestoreTimer g
  let g2 := { g1 with restore_tab := none, restore_attempts := 0 }
  match tab with
  | none => g2
  | some t =>
    { g2 with restore_tab := some t,
              restore_attempts := kDragNewTabRestoreAttempts,
              restoreHandle := true, restoreLive := g2.restoreLive + 1,
              restoreIntervalMs := kDragNewTabCheckIntervalMs }

/-- Host answers consumed by one restore-timer fire. -/
structure RestoreEnv where
  container_ok : Bool
  tabs : List TabId
  selected : Option TabId

/-- `DragNewTabRestoreTimerProc` of `tabbookmark.cc`. -/
def DragNewTabRestoreTimerProc (g0 : GlobalState) (env : RestoreEnv) :
    GlobalState × List Cmd :=
  if g0.restore_attempts ≤ 0 then (killFiringRestore g0, [])
  else
    let g := { g0 with restore_attempts := g0.restore_attempts - 1 }
    if g.st.hwnd = none then (killFiringRestore g, [])
    else if env.container_ok = false then (g, [])
    else
      match ResolveRestoreTab g.st env.tabs with
      | none => (g, [])
      | some r =>
        let cmds := if env.selected = some r then [] else [Cmd.selectTab r]
        if g.restore_attempts ≤ 0 then (killFiringRestore g, cmds) else (g, cmds)

/-- Host answers consumed by one poll-timer fire, in program order:
`GetTopContainerView` success, the first `GetTabs` read, `GetSelectedTab`,
the `SelectTab` return value, the re-queried selection after `SelectTab`,
and the `GetTabs` re-read after moving. -/
structure PollEnv where
  container_ok : Bool
  tabs : List TabId
  selected : Option TabId
  select_ok : Bool
  selected_after : Option TabId
  tabs_after_move : List TabId

/-- `DragNewTabTimerProc` of `tabbookmark.cc`. -/
def DragNewTabTimerProc (g0 : GlobalState) (env : PollEnv) :
    GlobalState × List Cmd :=
  let g := { g0 with pollLive := g0.pollLive - 1, pollHandle := false }
  if g.st.pending = false then (g, [])
  else if g.st.check_attempts ≤ 0 then (ResetDragNewTabState g, [])
  else
    let g1 := { g with st := { g.st with check_attempts := g.st.check_attempts - 1 } }
    if ¬ (g1.st.mode = 1 ∨ g1.st.mode = 2) then (ResetDragNewTabState g1, [])
    else if ¬ (g1.st.hwnd ≠ none ∧ env.container_ok = true) then
      (ResetDragNewTabState g1, [])
    else if g1.st.start_tabs.isEmpty then (ResetDragNewTabState g1, [])
    else
      match pollNewTab g1.st.start_tabs env.tabs env.selected with
      | none => (setPollTimer g1, [])
      | some t =>
        let move_steps := GetMoveStepsToEnd env.tabs (some t)
        let selCmds := ensureSelectedCmds env.selected t
        let ns := ensureSelectedOk env.selected env.select_ok env.selected_after t
        if ns = false ∧ (0 < move_steps ∨ g1.st.mode = 1) then
          (setPollTimer g1, selCmds)
        else
          let moveCmds :=
            if 0 < move_steps ∧ ns = true then MoveSelectedTabToEnd g1.st.hwnd move_steps
            else []
          let tabs2 :=
            if 0 < move_steps ∧ ns = true then env.tabs_after_move else env.tabs
          if g1.st.mode = 2 then
            match ResolveRestoreTab g1.st tabs2 with
            | some r =>
              if env.selected = none ∨ ¬ (env.selected = some r) ∨ ns = true then
                (finishDragSession (QueueDragNewTabRestore g1 (some r)),
                 selCmds ++ moveCmds ++ [Cmd.selectTab r])
              else (finishDragSession g1, selCmds ++ moveCmds)
            | none => (finishDragSession g1, selCmds ++ moveCmds)
          else
            if ns = true then (finishDragSession g1, selCmds ++ moveCmds)
            else (finishDragSession g1, selCmds ++ moveCmds ++ [Cmd.selectTab t])

/-- Host answers consumed at a queue/arm entry: the configuration value
`config.GetDragNewTabMode()` and the snapshot queries of
`InitDragNewTabState` (`GetTabCount`, `GetSelectedTab`, `GetTabs`). -/
structure QueueEnv where
  mode : Int
  tab_count : Int
  selected : Option TabId
  tabs : List TabId

/-- `InitDragNewTabState(hwnd, top_container_view)` of `tabbookmark.cc`;
`view_ok` is whether `top_container_view` is non-null. -/
def InitDragNewTabState (g : GlobalState) (hwnd : Option Nat) (view_ok : Bool)
    (env : QueueEnv) : GlobalState × Bool :=
  if ¬ (env.mode = 1 ∨ env.mode = 2) then (ResetDragNewTabState g, false)
  else if hwnd = none ∨ view_ok = false then (ResetDragNewTabState g, false)
  else
    let st := { g.st with
      mode := env.mode, hwnd := hwnd,
      start_tab_count := env.tab_count,
      start_selected_tab := env.selected,
      start_tabs := env.tabs,
      start_selected_index := GetTabIndex env.tabs env.selected }
    ({ g with st := st }, !env.tabs.isEmpty)

/-- The tail of `QueueDragNewTabCheck` after a successful snapshot binding:
cancel the restore timer and ticket, record the drop point, set `pending`,
reset the attempt budget, and (re)start the poll timer. -/
def QueueDragNewTabFinish (g : GlobalState) (pt : Int × Int) : GlobalState :=
  let g2 := killRestoreTimer g
  let g3 := { g2 with restore_tab := none, restore_attempts := 0 }
  let st4 := { g3.st with drop_point := pt, pending := true,
                          check_attempts := kDragNewTabMaxAttempts }
  let g4 := { g3 with st := st4 }
  setPollTimer (killPollTimer g4)

/-- `QueueDragNewTabCheck(hwnd, top_container_view, pt)` of `tabbookmark.cc`. -/
def QueueDragNewTabCheck (g : GlobalState) (hwnd : Option Nat) (view_ok : Bool)
    (pt : Int × Int) (env : QueueEnv) : GlobalState :=
  if ¬ (env.mode = 1 ∨ env.mode = 2) then ResetDragNewTabState g
  else
    let g1 := { g with st := { g.st with mode := env.mode } }
    let initRes :=
      if g1.st.start_tabs.isEmpty ∨ g1.st.hwnd ≠ hwnd then
        InitDragNewTabState g1 hwnd view_ok env
      else (g1, true)
    if initRes.2 = false then initRes.1
    else QueueDragNewTabFinish initRes.1 pt

/-- The `WM_LBUTTONDOWN` handling of `MouseProc` (lines 580-591). -/
def OnLButtonDown (g : GlobalState) : GlobalState :=
  let g1 := { g with st := { g.st with armed := false } }
  let g2 := killPollTimer g1
  { g2 with st := { g2.st with pending := false, check_attempts := 0,
                               start_tabs := [] } }

/-- The drag-new-tab part of the `WM_MOUSEMOVE` handling of `MouseProc`
(lines 560-574).  `lbutton` is `IsPressed(VK_LBUTTON)`, `view_ok` whether
`GetTopContainerView` succeeded, `on_tab_bar` the `IsOnTheTabBar` answer. -/
def ArmOnMouseMove (g : GlobalState) (hwnd : Option Nat) (view_ok : Bool)
    (on_tab_bar : Bool) (lbutton : Bool) (env : QueueEnv) : GlobalState :=
  if (env.mode = 1 ∨ env.mode = 2) ∧ lbutton = true ∧ view_ok = true ∧
      on_tab_bar = true then
    let g1 := { g with st := { g.st with armed := true } }
    if g1.st.start_tabs.isEmpty ∨ g1.st.hwnd ≠ hwnd then
      (InitDragNewTabState g1 hwnd view_ok env).1
    else g1
  else g

/-- The drag-new-tab part of the `WM_LBUTTONUP` handling of `MouseProc`
(lines 592-608).  `drag` is the `HandleDrag` threshold answer,
`on_new_tab_button` the `IsOnNewTabButton` answer. -/
def OnLButtonUp (g : GlobalState) (hwnd : Option Nat) (view_ok : Bool)
    (on_tab_bar : Bool) (on_new_tab_button : Bool) (drag : Bool)
    (pt : Int × Int) (env : QueueEnv) : GlobalState :=
  if (env.mode = 1 ∨ env.mode = 2) ∧ view_ok = true ∧ on_tab_bar = true ∧
      on_new_tab_button = false ∧ (g.st.armed = true ∨ drag = true) then
    let g1 := QueueDragNewTabCheck g hwnd view_ok pt env
    { g1 with st := { g1.st with armed := false } }
  else
    { g with st := { g.st with armed := false } }

/-- Iterated poll-timer fires against a fixed environment. -/
def pollIterate (env : PollEnv) : Nat → GlobalState → GlobalState
  | 0, g => g
  | n + 1, g => pollIterate env n (DragNewTabTimerProc g env).1

/-- Iterated restore-timer fires against a fixed environment. -/
def restoreIterate (env : RestoreEnv) : Nat → GlobalState → GlobalState
  | 0, g => g
  | n + 1, g => restoreIterate env n (DragNewTabRestoreTimerProc g env).1

/-- States reachable by any sequence of engine entry points (arm, drop/queue
via button-up, poll fire, restore fire, button-down cancel), from the
process-start state, each entry point supplied with an arbitrary host
environment.  A timer fire requires an outstanding timer of its kind. -/
inductive Reachable : GlobalState → Prop where
  | init : Reachable initialGlobal
  | arm (g : GlobalState) (hg : Reachable g) (hwnd : Option Nat)
      (view_ok on_tab_bar lbutton : Bool) (env : QueueEnv) :
      Reachable (ArmOnMouseMove g hwnd view_ok on_tab_bar lbutton env)
  | up (g : GlobalState) (hg : Reachable g) (hwnd : Option Nat)
      (view_ok on_tab_bar on_new_tab_button drag : Bool) (pt : Int × Int)
      (env : QueueEnv) :
      Reachable (OnLButtonUp g hwnd view_ok on_tab_bar on_new_tab_button drag pt env)
  | down (g : GlobalState) (hg : Reachable g) : Reachable (OnLButtonDown g)
  | poll (g : GlobalState) (hg : Reachable g) (hl : 1 ≤ g.pollLive) (env : PollEnv) :
      Reachable (DragNewTabTimerProc g env).1
  | restore (g : GlobalState) (hg : Reachable g) (hl : 1 ≤ g.restoreLive)
      (env : RestoreEnv) :
      Reachable (DragNewTabRestoreTimerProc g env).1

/-- States reachable when arm and drop/queue entries occur only while no
session is pending — which the physical button-down/up ordering guarantees,
since every press cancels the pending flag before a further move or release
is seen. -/
inductive ReachableOrdered : GlobalState → Prop where
  | init : ReachableOrdered initialGlobal
  | arm (g : GlobalState) (hg : ReachableOrdered g) (hp : g.st.pending = false)
      (hwnd : Option Nat) (view_ok on_tab_bar lbutton : Bool) (env : QueueEnv) :
      ReachableOrdered (ArmOnMouseMove g hwnd view_ok on_tab_bar lbutton env)
  | up (g : GlobalState) (hg : ReachableOrdered g) (hp : g.st.pending = false)
      (hwnd : Option Nat) (view_ok on_tab_bar on_new_tab_button drag : Bool)
      (pt : Int × Int) (env : QueueEnv) :
      ReachableOrdered (OnLButtonUp g hwnd view_ok on_tab_bar on_new_tab_button drag pt env)
  | down (g : GlobalState) (hg : ReachableOrdered g) : ReachableOrdered (OnLButtonDown g)
  | poll (g : GlobalState) (hg : ReachableOrdered g) (hl : 1 ≤ g.pollLive)
      (env : PollEnv) : ReachableOrdered (DragNewTabTimerProc g env).1
  | restore (g : GlobalState) (hg : ReachableOrdered g) (hl : 1 ≤ g.restoreLive)
      (env : RestoreEnv) :
      ReachableOrdered (DragNewTabRestoreTimerProc g env).1

/-! ## Helper lemmas about the pure list functions -/

theorem mem_any_beq (S : List TabId) (a : TabId) (ha : a ∈ S) :
    S.any (fun old => a == old) = true := by
  rw [List.any_eq_true]
  exact ⟨a, ha, by simp⟩

theorem not_mem_any_beq (S : List TabId) (x : TabId) (hx : x ∉ S) :
    S.any (fun old => x == old) = false := by
  cases h : S.any (fun old => x == old)
  · rfl
  · obtain ⟨y, hy, hxy⟩ := List.any_eq_true.mp h
    rw [beq_iff_eq] at hxy
    exact absurd (hxy ▸ hy) hx

theorem find_first_absent (S : List TabId) (x : TabId) (hx : x ∉ S) :
    ∀ (P S2 : List TabId), (∀ a ∈ P, a ∈ S) →
    (P ++ x :: S2).find? (fun tab => !(S.any (fun old => tab == old))) = some x := by
  intro P
  induction P with
  | nil =>
    intro S2 _
    simp only [List.nil_append, List.find?]
    rw [not_mem_any_beq S x hx]
    rfl
  | cons a P ih =>
    intro S2 hP
    simp only [List.cons_append, List.find?]
    rw [mem_any_beq S a (hP a (by simp))]
    exact ih S2 (fun b hb => hP b (by simp [hb]))

/-- Claim C1: for every non-empty start snapshot `S = S1 ++ S2` and current
list formed by inserting exactly one identity `x ∉ S` at any position,
`FindNewTabAfterDrag` returns exactly that inserted identity. -/
theorem drag_new_tab_identification (S1 S2 : List TabId) (x : TabId)
    (hne : S1 ++ S2 ≠ []) (hx : x ∉ S1 ++ S2) :
    FindNewTabAfterDrag (S1 ++ S2) (S1 ++ x :: S2) = some x := by
  have hempty : (S1 ++ S2).isEmpty = false := by
    cases h : (S1 ++ S2).isEmpty
    · rfl
    · exact absurd (List.isEmpty_iff.mp h) hne
  unfold FindNewTabAfterDrag
  simp only [hempty, Bool.false_eq_true, if_false]
  exact find_first_absent (S1 ++ S2) x hx S1 S2 (fun a ha => by simp [ha])

/-- Witness for C1: inserting identity 13 into the middle of snapshot
`[10, 11, 12]` is detected. -/
theorem drag_new_tab_identification_witness :
    [10, 11, 12] ≠ ([] : List TabId) ∧ 13 ∉ [10, 11, 12] ∧
    FindNewTabAfterDrag [10, 11, 12] [10, 13, 11, 12] = some 13 :=
  ⟨by decide, by decide,
   drag_new_tab_identification [10] [11, 12] 13 (by decide) (by decide)⟩

theorem tabIndexAux_neg_of_not_mem (t : TabId) (xs : List TabId) (h : t ∉ xs) :
    tabIndexAux t xs = -1 := by
  induction xs with
  | nil => rfl
  | cons x xs ih =>
    have hxt : ¬ x = t := fun he => h (by simp [he])
    have htl : t ∉ xs := fun he => h (by simp [he])
    simp only [tabIndexAux, if_neg hxt, ih htl]
    rfl

theorem tabIndexAux_nonneg_of_mem (t : TabId) (xs : List TabId) (h : t ∈ xs) :
    0 ≤ tabIndexAux t xs := by
  induction xs with
  | nil => simp at h
  | cons x xs ih =>
    by_cases hxt : x = t
    · simp [tabIndexAux, hxt]
    · have htl : t ∈ xs := by
        rcases List.mem_cons.mp h with h1 | h1
        · exact absurd h1.symm hxt
        · exact h1
      have hr := ih htl
      simp only [tabIndexAux, if_neg hxt]
      rw [if_neg (by omega)]
      omega

theorem getTabByIndex_cons (x : TabId) (xs : List TabId) (i : Int) (hi : 0 ≤ i) :
    GetTabByIndex (x :: xs) (i + 1) = GetTabByIndex xs i := by
  unfold GetTabByIndex
  by_cases hc : i < 0 ∨ (xs.length : Int) ≤ i
  · rw [if_pos (by simp only [List.length_cons]; push_cast; omega), if_pos hc]
  · rw [if_neg (by simp only [List.length_cons]; push_cast; omega), if_neg hc]
    have ht : (i + 1).toNat = i.toNat + 1 := by omega
    rw [ht]
    rfl

theorem getTabByIndex_tabIndexAux (t : TabId) (xs : List TabId) (h : t ∈ xs) :
    GetTabByIndex xs (tabIndexAux t xs) = some t := by
  induction xs with
  | nil => simp at h
  | cons x xs ih =>
    by_cases hxt : x = t
    · simp only [tabIndexAux, if_pos hxt]
      unfold GetTabByIndex
      have hcond : ¬((0 : Int) < 0 ∨ (((x :: xs).length : Nat) : Int) ≤ 0) := by
        simp only [List.length_cons]
        omega
      rw [if_neg hcond]
      simp [hxt]
    · have htl : t ∈ xs := by
        rcases List.mem_cons.mp h with h1 | h1
        · exact absurd h1.symm hxt
        · exact h1
      have hr := tabIndexAux_nonneg_of_mem t xs htl
      simp only [tabIndexAux, if_neg hxt]
      rw [if_neg (by omega)]
      rw [getTabByIndex_cons x xs _ hr]
      exact ih htl

/-- Claim C5: the restore-target resolution returns the original start-selected
identity whenever it is still present in the current tab list, otherwise the
tab occupying the original start-selected index, and `none` when that index is
out of the list's range.  (`ResolveRestoreTab` is invoked by the terminal
action only in mode 2, `MoveToEndAndRestoreSelection`.) -/
theorem resolve_restore_target (st : DragNewTabState) (tabs : List TabId)
    (t : TabId) (hsel : st.start_selected_tab = some t) :
    (t ∈ tabs → ResolveRestoreTab st tabs = some t) ∧
    (t ∉ tabs → ResolveRestoreTab st tabs = GetTabByIndex tabs st.start_selected_index) ∧
    ((st.start_selected_index < 0 ∨ (tabs.length : Int) ≤ st.start_selected_index) →
      GetTabByIndex tabs st.start_selected_index = none) := by
  refine ⟨?_, ?_, ?_⟩
  · intro hmem
    simp only [ResolveRestoreTab, hsel, GetTabIndex]
    rw [if_pos (tabIndexAux_nonneg_of_mem t tabs hmem)]
    exact getTabByIndex_tabIndexAux t tabs hmem
  · intro hmem
    simp only [ResolveRestoreTab, hsel, GetTabIndex]
    rw [tabIndexAux_neg_of_not_mem t tabs hmem]
    rw [if_neg (by omega)]
  · intro hrange
    unfold GetTabByIndex
    rw [if_pos hrange]

/-- Witness for C5, at the spec's own example: snapshot selection `B = 11`
(index 1) with current list `[10, 12, 13]`: `B` is gone, so the restore target
falls back to the tab now at index 1, namely `12`. -/
theorem resolve_restore_target_witness :
    ResolveRestoreTab
      { emptyDragState with start_selected_tab := some 11, start_selected_index := 1 }
      [10, 12, 13] = GetTabByIndex [10, 12, 13] 1 ∧
    GetTabByIndex [10, 12, 13] 1 = some 12 :=
  ⟨(resolve_restore_target
      { emptyDragState with start_selected_tab := some 11, start_selected_index := 1 }
      [10, 12, 13] 11 rfl).2.1 (by decide), by decide⟩

/-! ## Branch characterizations of the poll-timer procedure -/

theorem poll_not_pending (g : GlobalState) (env : PollEnv)
    (hp : g.st.pending = false) :
    DragNewTabTimerProc g env =
      ({ g with pollLive := g.pollLive - 1, pollHandle := false }, []) := by
  simp [DragNewTabTimerProc, hp]

theorem poll_exhausted (g : GlobalState) (env : PollEnv)
    (hp : g.st.pending = true) (ha : g.st.check_attempts ≤ 0) :
    DragNewTabTimerProc g env =
      (ResetDragNewTabState { g with pollLive := g.pollLive - 1, pollHandle := false },
       []) := by
  simp [DragNewTabTimerProc, hp, ha]

theorem poll_mode_disabled (g : GlobalState) (env : PollEnv)
    (hp : g.st.pending = true) (ha : 0 < g.st.check_attempts)
    (hm : ¬ (g.st.mode = 1 ∨ g.st.mode = 2)) :
    (DragNewTabTimerProc g env).1 =
      ResetDragNewTabState { g with pollLive := g.pollLive - 1, pollHandle := false } ∧
    (DragNewTabTimerProc g env).2 = [] := by
  have ha2 : ¬ (g.st.check_attempts ≤ 0) := by omega
  constructor <;>
    simp [DragNewTabTimerProc, hp, ha2, hm, ResetDragNewTabState, killRestoreTimer]

theorem poll_nofind (g : GlobalState) (env : PollEnv)
    (hp : g.st.pending = true) (ha : 0 < g.st.check_attempts)
    (hm : g.st.mode = 1 ∨ g.st.mode = 2) (hh : g.st.hwnd ≠ none)
    (hc : env.container_ok = true) (hs : g.st.start_tabs ≠ [])
    (hn : pollNewTab g.st.start_tabs env.tabs env.selected = none) :
    DragNewTabTimerProc g env =
      (setPollTimer
        { g with
            pollHandle := false
            pollLive := g.pollLive - 1
            st := { g.st with check_attempts := g.st.check_attempts - 1 } },
       []) := by
  have ha2 : ¬ (g.st.check_attempts ≤ 0) := by omega
  have hm2 : ¬ ¬ (g.st.mode = 1 ∨ g.st.mode = 2) := not_not_intro hm
  simp [DragNewTabTimerProc, hp, ha2, hm2, hh, hc, List.isEmpty_iff, hs, hn]

/-! ## Frame lemmas for the timer helpers -/

@[simp] theorem killRestoreTimer_st (g : GlobalState) :
    (killRestoreTimer g).st = g.st := by
  unfold killRestoreTimer; split <;> rfl

@[simp] theorem killRestoreTimer_poll (g : GlobalState) :
    (killRestoreTimer g).pollHandle = g.pollHandle ∧
    (killRestoreTimer g).pollLive = g.pollLive ∧
    (killRestoreTimer g).pollIntervalMs = g.pollIntervalMs := by
  unfold killRestoreTimer; split <;> exact ⟨rfl, rfl, rfl⟩

@[simp] theorem killRestoreTimer_handle (g : GlobalState) :
    (killRestoreTimer g).restoreHandle = false := by
  unfold killRestoreTimer; split <;> simp_all

@[simp] theorem killPollTimer_st (g : GlobalState) :
    (killPollTimer g).st = g.st := by
  unfold killPollTimer; split <;> rfl

@[simp] theorem killPollTimer_handle (g : GlobalState) :
    (killPollTimer g).pollHandle = false := by
  unfold killPollTimer; split <;> simp_all

@[simp] theorem killPollTimer_restore (g : GlobalState) :
    (killPollTimer g).restoreHandle = g.restoreHandle ∧
    (killPollTimer g).restoreLive = g.restoreLive ∧
    (killPollTimer g).restore_tab = g.restore_tab ∧
    (killPollTimer g).restore_attempts = g.restore_attempts := by
  unfold killPollTimer; split <;> exact ⟨rfl, rfl, rfl, rfl⟩

@[simp] theorem setPollTimer_st (g : GlobalState) : (setPollTimer g).st = g.st := rfl

@[simp] theorem setPollTimer_handle (g : GlobalState) :
    (setPollTimer g).pollHandle = true := rfl

@[simp] theorem setPollTimer_interval (g : GlobalState) :
    (setPollTimer g).pollIntervalMs = kDragNewTabCheckIntervalMs := rfl

@[simp] theorem setPollTimer_restore (g : GlobalState) :
    (setPollTimer g).restoreHandle = g.restoreHandle ∧
    (setPollTimer g).restoreLive = g.restoreLive ∧
    (setPollTimer g).restore_tab = g.restore_tab ∧
    (setPollTimer g).restore_attempts = g.restore_attempts :=
  ⟨rfl, rfl, rfl, rfl⟩

@[simp] theorem killFiringRestore_st (g : GlobalState) :
    (killFiringRestore g).st = g.st := rfl

@[simp] theorem killFiringRestore_poll (g : GlobalState) :
    (killFiringRestore g).pollHandle = g.pollHandle ∧
    (killFiringRestore g).pollLive = g.pollLive ∧
    (killFiringRestore g).pollIntervalMs = g.pollIntervalMs :=
  ⟨rfl, rfl, rfl⟩

@[simp] theorem reset_st (g : GlobalState) :
    (ResetDragNewTabState g).st = emptyDragState := by
  unfold ResetDragNewTabState
  simp

@[simp] theorem reset_restore (g : GlobalState) :
    (ResetDragNewTabState g).restoreHandle = false ∧
    (ResetDragNewTabState g).restore_tab = none ∧
    (ResetDragNewTabState g).restore_attempts = 0 := by
  unfold ResetDragNewTabState
  simp

@[simp] theorem reset_poll (g : GlobalState) :
    (ResetDragNewTabState g).pollHandle = g.pollHandle ∧
    (ResetDragNewTabState g).pollLive = g.pollLive ∧
    (ResetDragNewTabState g).pollIntervalMs = g.pollIntervalMs := by
  unfold ResetDragNewTabState
  simp

@[simp] theorem queueRestore_st (g : GlobalState) (tab : Option TabId) :
    (QueueDragNewTabRestore g tab).st = g.st := by
  unfold QueueDragNewTabRestore
  cases tab <;> simp

@[simp] theorem queueRestore_poll (g : GlobalState) (tab : Option TabId) :
    (QueueDragNewTabRestore g tab).pollHandle = g.pollHandle ∧
    (QueueDragNewTabRestore g tab).pollLive = g.pollLive ∧
    (QueueDragNewTabRestore g tab).pollIntervalMs = g.pollIntervalMs := by
  unfold QueueDragNewTabRestore
  cases tab <;> simp

@[simp] theorem queueRestore_some (g : GlobalState) (t : TabId) :
    (QueueDragNewTabRestore g (some t)).restore_attempts = kDragNewTabRestoreAttempts ∧
    (QueueDragNewTabRestore g (some t)).restoreHandle = true ∧
    (QueueDragNewTabRestore g (some t)).restore_tab = some t ∧
    (QueueDragNewTabRestore g (some t)).restoreIntervalMs = kDragNewTabCheckIntervalMs := by
  unfold QueueDragNewTabRestore
  simp

@[simp] theorem finish_st (g : GlobalState) :
    (finishDragSession g).st =
      { g.st with pending := false, check_attempts := 0, start_tabs := [],
                  armed := false } := rfl

@[simp] theorem finish_frame (g : GlobalState) :
    (finishDragSession g).pollHandle = g.pollHandle ∧
    (finishDragSession g).pollLive = g.pollLive ∧
    (finishDragSession g).pollIntervalMs = g.pollIntervalMs ∧
    (finishDragSession g).restoreHandle = g.restoreHandle ∧
    (finishDragSession g).restoreLive = g.restoreLive ∧
    (finishDragSession g).restore_tab = g.restore_tab ∧
    (finishDragSession g).restore_attempts = g.restore_attempts :=
  ⟨rfl, rfl, rfl, rfl, rfl, rfl, rfl⟩

theorem restoreProc_st (g : GlobalState) (env : RestoreEnv) :
    (DragNewTabRestoreTimerProc g env).1.st = g.st := by
  unfold DragNewTabRestoreTimerProc
  dsimp only
  repeat' split
  all_goals rfl

theorem restoreProc_poll (g : GlobalState) (env : RestoreEnv) :
    (DragNewTabRestoreTimerProc g env).1.pollHandle = g.pollHandle ∧
    (DragNewTabRestoreTimerProc g env).1.pollLive = g.pollLive ∧
    (DragNewTabRestoreTimerProc g env).1.pollIntervalMs = g.pollIntervalMs := by
  unfold DragNewTabRestoreTimerProc
  dsimp only
  repeat' split
  all_goals exact ⟨rfl, rfl, rfl⟩

theorem poll_selfail_resched (g : GlobalState) (env : PollEnv) (t : TabId)
    (hp : g.st.pending = true) (ha : 0 < g.st.check_attempts)
    (hm : g.st.mode = 1 ∨ g.st.mode = 2) (hh : g.st.hwnd ≠ none)
    (hc : env.container_ok = true) (hs : g.st.start_tabs ≠ [])
    (hn : pollNewTab g.st.start_tabs env.tabs env.selected = some t)
    (hf : ensureSelectedOk env.selected env.select_ok env.selected_after t = false)
    (hgo : 0 < GetMoveStepsToEnd env.tabs (some t) ∨ g.st.mode = 1) :
    DragNewTabTimerProc g env =
      (setPollTimer
        { g with
            pollHandle := false
            pollLive := g.pollLive - 1
            st := { g.st with check_attempts := g.st.check_attempts - 1 } },
       ensureSelectedCmds env.selected t) := by
  have ha2 : ¬ (g.st.check_attempts ≤ 0) := by omega
  have hm2 : ¬ ¬ (g.st.mode = 1 ∨ g.st.mode = 2) := not_not_intro hm
  simp [DragNewTabTimerProc, hp, ha2, hm2, hh, hc, List.isEmpty_iff, hs, hn, hf, hgo]

theorem poll_terminal_fields (g : GlobalState) (env : PollEnv) (t : TabId)
    (hp : g.st.pending = true) (ha : 0 < g.st.check_attempts)
    (hm : g.st.mode = 1 ∨ g.st.mode = 2) (hh : g.st.hwnd ≠ none)
    (hc : env.container_ok = true) (hs : g.st.start_tabs ≠ [])
    (hn : pollNewTab g.st.start_tabs env.tabs env.selected = some t)
    (hgo : ¬ (ensureSelectedOk env.selected env.select_ok env.selected_after t = false ∧
      (0 < GetMoveStepsToEnd env.tabs (some t) ∨ g.st.mode = 1))) :
    (DragNewTabTimerProc g env).1.st =
      { g.st with pending := false, check_attempts := 0, start_tabs := [],
                  armed := false } ∧
    (DragNewTabTimerProc g env).1.pollHandle = false := by
  have ha2 : ¬ (g.st.check_attempts ≤ 0) := by omega
  have hm2 : ¬ ¬ (g.st.mode = 1 ∨ g.st.mode = 2) := not_not_intro hm
  unfold DragNewTabTimerProc
  simp only [hp, ha2, hm2, hh, hc, List.isEmpty_iff, hs, hn, ne_eq,
    not_false_eq_true, and_true, true_and, not_true_eq_false, if_false, if_true,
    Bool.true_eq_false, ite_false, ite_true]
  rw [if_neg (by simpa using hgo)]
  repeat' split
  all_goals simp

theorem pollNewTab_none (start_tabs tabs : List TabId) (selected : Option TabId)
    (hfind : FindNewTabAfterDrag start_tabs tabs = none)
    (hsel : selected = none ∨ IsTabInList start_tabs selected = true) :
    pollNewTab start_tabs tabs selected = none := by
  unfold pollNewTab
  rw [hfind]
  cases selected with
  | none => rfl
  | some s =>
    rcases hsel with h | h
    · exact absurd h (by simp)
    · simp [h]

theorem pollIterate_notPending (env : PollEnv) (k : Nat) :
    ∀ (g : GlobalState), g.st.pending = false → g.pollHandle = false →
    (pollIterate env k g).st = g.st ∧ (pollIterate env k g).pollHandle = false := by
  induction k with
  | zero => exact fun g hp hh => ⟨rfl, hh⟩
  | succ k ih =>
    intro g hp hh
    have hfire := poll_not_pending g env hp
    simp only [pollIterate, hfire]
    exact ih _ hp (by simp)

theorem pollIterate_nofind (env : PollEnv) : ∀ (n : Nat) (g : GlobalState),
    g.st.pending = true → (g.st.mode = 1 ∨ g.st.mode = 2) → g.st.hwnd ≠ none →
    env.container_ok = true → g.st.start_tabs ≠ [] →
    pollNewTab g.st.start_tabs env.tabs env.selected = none →
    g.st.check_attempts ≤ (n : Int) →
    (pollIterate env (n + 1) g).st = emptyDragState ∧
    (pollIterate env (n + 1) g).pollHandle = false := by
  intro n
  induction n with
  | zero =>
    intro g hp _ _ _ _ _ hb
    have hfire := poll_exhausted g env hp (by exact_mod_cast hb)
    have hstep : pollIterate env (0 + 1) g = (DragNewTabTimerProc g env).1 := rfl
    rw [hstep, hfire]
    simp
  | succ n ih =>
    intro g hp hm hh hc hs hn hb
    have hstep : pollIterate env (n + 1 + 1) g =
        pollIterate env (n + 1) (DragNewTabTimerProc g env).1 := rfl
    by_cases ha : g.st.check_attempts ≤ 0
    · have hfire := poll_exhausted g env hp ha
      rw [hstep, hfire]
      have hstable := pollIterate_notPending env (n + 1)
        (ResetDragNewTabState { g with pollLive := g.pollLive - 1, pollHandle := false })
        (by simp [emptyDragState]) (by simp)
      rw [hstable.1]
      exact ⟨by simp, hstable.2⟩
    · have hfire := poll_nofind g env hp (by omega) hm hh hc hs hn
      rw [hstep, hfire]
      exact ih _ (by simp [hp]) (by simpa using hm) (by simpa using hh) hc
        (by simpa using hs) (by simpa using hn)
        (by simp only [setPollTimer_st]; push_cast at hb ⊢; omega)

/-- Claim C2: when a poll of the current tab list yields no identity absent
from the start snapshot and the currently selected tab is also not absent
from it, a poll fire with attempts remaining reschedules another attempt at
the same 80 ms interval rather than terminating; starting from the fixed
budget of at most 12 attempts, after at most 13 fires the session is
abandoned and fully reset, so the poll loop never retries forever. -/
theorem drag_poll_retry_bounded (g : GlobalState) (env : PollEnv)
    (hp : g.st.pending = true)
    (hfind : FindNewTabAfterDrag g.st.start_tabs env.tabs = none)
    (hsel : env.selected = none ∨ IsTabInList g.st.start_tabs env.selected = true)
    (hm : g.st.mode = 1 ∨ g.st.mode = 2) (hh : g.st.hwnd ≠ none)
    (hc : env.container_ok = true) (hs : g.st.start_tabs ≠ [])
    (hb : g.st.check_attempts ≤ kDragNewTabMaxAttempts) :
    (0 < g.st.check_attempts →
      (DragNewTabTimerProc g env).1.st.pending = true ∧
      (DragNewTabTimerProc g env).1.pollHandle = true ∧
      (DragNewTabTimerProc g env).1.pollIntervalMs = kDragNewTabCheckIntervalMs ∧
      (DragNewTabTimerProc g env).1.st.check_attempts = g.st.check_attempts - 1 ∧
      (DragNewTabTimerProc g env).2 = []) ∧
    (pollIterate env (kDragNewTabMaxAttempts.toNat + 1) g).st = emptyDragState ∧
    (pollIterate env (kDragNewTabMaxAttempts.toNat + 1) g).pollHandle = false := by
  have hn := pollNewTab_none g.st.start_tabs env.tabs env.selected hfind hsel
  constructor
  · intro ha
    rw [poll_nofind g env hp ha hm hh hc hs hn]
    simp [hp]
  · exact pollIterate_nofind env kDragNewTabMaxAttempts.toNat g hp hm hh hc hs hn
      (by rw [show ((kDragNewTabMaxAttempts.toNat : Nat) : Int) = kDragNewTabMaxAttempts from by decide]; exact hb)

/-- Concrete pending session used by witnesses: snapshot `[10, 11, 12]`,
selection `11` at index 1, full attempt budget, poll timer outstanding. -/
def c2g : GlobalState :=
  { st := { mode := 1, hwnd := some 1, drop_point := (0, 0), start_tab_count := 3,
            start_selected_tab := some 11, start_selected_index := 1,
            start_tabs := [10, 11, 12], check_attempts := 12, armed := false,
            pending := true },
    pollHandle := true, pollLive := 1, pollIntervalMs := 80,
    restoreHandle := false, restoreLive := 0, restoreIntervalMs := 0,
    restore_tab := none, restore_attempts := 0 }

/-- A host answer in which the tab list still equals the start snapshot. -/
def c2env : PollEnv :=
  { container_ok := true, tabs := [10, 11, 12], selected := some 11,
    select_ok := true, selected_after := some 11, tabs_after_move := [10, 11, 12] }

/-- Witness for C2 at a concrete pending session with the full 12-attempt
budget and a host that never yields a new tab. -/
theorem drag_poll_retry_bounded_witness :
    ((DragNewTabTimerProc c2g c2env).1.st.pending = true ∧
     (DragNewTabTimerProc c2g c2env).1.pollHandle = true ∧
     (DragNewTabTimerProc c2g c2env).1.pollIntervalMs = kDragNewTabCheckIntervalMs) ∧
    (pollIterate c2env (kDragNewTabMaxAttempts.toNat + 1) c2g).st = emptyDragState := by
  have h := drag_poll_retry_bounded c2g c2env (by decide) (by decide) (by decide)
    (by decide) (by decide) (by decide) (by decide) (by decide)
  exact ⟨⟨(h.1 (by decide)).1, (h.1 (by decide)).2.1, (h.1 (by decide)).2.2.1⟩, h.2.1⟩

/-- Claim C9: when a poll timer fires for a pending session whose captured
drag-new-tab mode is disabled (neither 1 = MoveToEnd nor
2 = MoveToEndAndRestoreSelection — the session's `mode` field holds the
configuration value captured at queue time), the fire abandons and fully
resets the session, issues no commands, and schedules no further attempt:
the poll timer is not re-set and the restore timer is cancelled. -/
theorem poll_disabled_abandons (g : GlobalState) (env : PollEnv)
    (hp : g.st.pending = true) (hm : ¬ (g.st.mode = 1 ∨ g.st.mode = 2)) :
    (DragNewTabTimerProc g env).1.st = emptyDragState ∧
    (DragNewTabTimerProc g env).1.pollHandle = false ∧
    (DragNewTabTimerProc g env).1.restoreHandle = false ∧
    (DragNewTabTimerProc g env).1.restore_tab = none ∧
    (DragNewTabTimerProc g env).1.restore_attempts = 0 ∧
    (DragNewTabTimerProc g env).2 = [] := by
  by_cases ha : g.st.check_attempts ≤ 0
  · rw [poll_exhausted g env hp ha]
    simp
  · obtain ⟨h1, h2⟩ := poll_mode_disabled g env hp (by omega) hm
    rw [h1, h2]
    simp

/-- Witness for C9: a pending session whose stored mode is 0. -/
theorem poll_disabled_abandons_witness :
    (DragNewTabTimerProc { c2g with st := { c2g.st with mode := 0 } } c2env).1.st =
      emptyDragState ∧
    (DragNewTabTimerProc { c2g with st := { c2g.st with mode := 0 } } c2env).1.pollHandle =
      false ∧
    (DragNewTabTimerProc { c2g with st := { c2g.st with mode := 0 } } c2env).2 = [] := by
  have h := poll_disabled_abandons { c2g with st := { c2g.st with mode := 0 } } c2env
    (by decide) (by decide)
  exact ⟨h.1, h.2.1, h.2.2.2.2.2⟩

@[simp] theorem killFiringRestore_attempts (g : GlobalState) :
    (killFiringRestore g).restore_attempts = g.restore_attempts := rfl

@[simp] theorem killFiringRestore_handle (g : GlobalState) :
    (killFiringRestore g).restoreHandle = false := rfl

theorem restore_fire_exhausted (g : GlobalState) (env : RestoreEnv)
    (ha : g.restore_attempts ≤ 0) :
    DragNewTabRestoreTimerProc g env = (killFiringRestore g, []) := by
  simp [DragNewTabRestoreTimerProc, ha]

theorem restore_fire_hwnd_none (g : GlobalState) (env : RestoreEnv)
    (ha : 0 < g.restore_attempts) (hh : g.st.hwnd = none) :
    DragNewTabRestoreTimerProc g env =
      (killFiringRestore { g with restore_attempts := g.restore_attempts - 1 },
       []) := by
  have ha2 : ¬ (g.restore_attempts ≤ 0) := by omega
  simp [DragNewTabRestoreTimerProc, ha2, hh]

theorem restore_fire_work (g : GlobalState) (env : RestoreEnv) (r : TabId)
    (ha : 0 < g.restore_attempts) (hh : g.st.hwnd ≠ none)
    (hc : env.container_ok = true)
    (hr : ResolveRestoreTab g.st env.tabs = some r) :
    (DragNewTabRestoreTimerProc g env).2 =
      (if env.selected = some r then [] else [Cmd.selectTab r]) ∧
    (DragNewTabRestoreTimerProc g env).1.restore_attempts =
      g.restore_attempts - 1 := by
  have ha2 : ¬ (g.restore_attempts ≤ 0) := by omega
  unfold DragNewTabRestoreTimerProc
  simp only [ha2, if_false, ite_false, hh, hc, Bool.true_eq_false, hr]
  constructor <;> (repeat' split) <;> simp_all

theorem restore_fire_decrement (g : GlobalState) (env : RestoreEnv)
    (ha : 0 < g.restore_attempts) :
    (DragNewTabRestoreTimerProc g env).1.restore_attempts =
      g.restore_attempts - 1 := by
  have ha2 : ¬ (g.restore_attempts ≤ 0) := by omega
  unfold DragNewTabRestoreTimerProc
  simp only [ha2, if_false, ite_false]
  dsimp only
  repeat' split
  all_goals simp

theorem restoreIterate_cancels (env : RestoreEnv) : ∀ (n : Nat) (g : GlobalState),
    g.restore_attempts ≤ (n : Int) →
    (restoreIterate env (n + 1) g).restoreHandle = false := by
  intro n
  induction n with
  | zero =>
    intro g hb
    have hfire := restore_fire_exhausted g env (by exact_mod_cast hb)
    have hstep : restoreIterate env (0 + 1) g = (DragNewTabRestoreTimerProc g env).1 := rfl
    rw [hstep, hfire]
    simp
  | succ n ih =>
    intro g hb
    have hstep : restoreIterate env (n + 1 + 1) g =
        restoreIterate env (n + 1) (DragNewTabRestoreTimerProc g env).1 := rfl
    rw [hstep]
    by_cases ha : g.restore_attempts ≤ 0
    · rw [restore_fire_exhausted g env ha]
      exact ih _ (by simp; omega)
    · have hd := restore_fire_decrement g env (by omega)
      exact ih _ (by rw [hd]; push_cast at hb ⊢; omega)

/-- Claim C6: each restore-verification fire with attempts remaining and a
valid binding re-reads the selection and re-issues the restore-select command
exactly when the current selection does not match the re-resolved restore
target, consuming one attempt; it self-cancels when attempts are exhausted
or the bound window handle is gone; it never touches the poll timer; the
timer is created with 4 attempts at the 80 ms interval, and iterated fires
cancel it after at most `restore_attempts` working attempts. -/
theorem restore_verification_spec (g : GlobalState) (env : RestoreEnv) (r : TabId) :
    (0 < g.restore_attempts → g.st.hwnd ≠ none → env.container_ok = true →
      ResolveRestoreTab g.st env.tabs = some r →
      (DragNewTabRestoreTimerProc g env).2 =
        (if env.selected = some r then [] else [Cmd.selectTab r]) ∧
      (DragNewTabRestoreTimerProc g env).1.restore_attempts =
        g.restore_attempts - 1) ∧
    (g.restore_attempts ≤ 0 →
      (DragNewTabRestoreTimerProc g env).1.restoreHandle = false ∧
      (DragNewTabRestoreTimerProc g env).2 = []) ∧
    (0 < g.restore_attempts → g.st.hwnd = none →
      (DragNewTabRestoreTimerProc g env).1.restoreHandle = false ∧
      (DragNewTabRestoreTimerProc g env).2 = []) ∧
    ((DragNewTabRestoreTimerProc g env).1.pollHandle = g.pollHandle ∧
     (DragNewTabRestoreTimerProc g env).1.pollLive = g.pollLive) ∧
    ((QueueDragNewTabRestore g (some r)).restore_attempts = kDragNewTabRestoreAttempts ∧
     (QueueDragNewTabRestore g (some r)).restoreIntervalMs = kDragNewTabCheckIntervalMs ∧
     kDragNewTabRestoreAttempts = 4 ∧ kDragNewTabCheckIntervalMs = 80) ∧
    (restoreIterate env (g.restore_attempts.toNat + 1) g).restoreHandle = false := by
  refine ⟨?_, ?_, ?_, ?_, ?_, ?_⟩
  · intro ha hh hc hr
    exact restore_fire_work g env r ha hh hc hr
  · intro ha
    rw [restore_fire_exhausted g env ha]
    simp
  · intro ha hh
    rw [restore_fire_hwnd_none g env ha hh]
    simp
  · exact ⟨(restoreProc_poll g env).1, (restoreProc_poll g env).2.1⟩
  · exact ⟨(queueRestore_some g r).1, (queueRestore_some g r).2.2.2, by decide, by decide⟩
  · exact restoreIterate_cancels env g.restore_attempts.toNat g (Int.self_le_toNat _)

/-- Concrete restore-verification state: ticket live with 4 attempts, bound
to window 1, original selection `11` at index 1. -/
def c6g : GlobalState :=
  { st := { mode := 2, hwnd := some 1, drop_point := (0, 0), start_tab_count := 3,
            start_selected_tab := some 11, start_selected_index := 1,
            start_tabs := [], check_attempts := 0, armed := false,
            pending := false },
    pollHandle := false, pollLive := 0, pollIntervalMs := 80,
    restoreHandle := true, restoreLive := 1, restoreIntervalMs := 80,
    restore_tab := some 11, restore_attempts := 4 }

/-- A host answer in which tab `10` is selected instead of the target `11`. -/
def c6env : RestoreEnv :=
  { container_ok := true, tabs := [10, 11, 12], selected := some 10 }

/-- Witness for C6: with the wrong tab selected, the fire re-issues the
select command for the resolved target and consumes an attempt, and five
iterated fires cancel the timer. -/
theorem restore_verification_spec_witness :
    (DragNewTabRestoreTimerProc c6g c6env).2 = [Cmd.selectTab 11] ∧
    (DragNewTabRestoreTimerProc c6g c6env).1.restore_attempts = 3 ∧
    (restoreIterate c6env (c6g.restore_attempts.toNat + 1) c6g).restoreHandle = false := by
  have h := restore_verification_spec c6g c6env 11
  have hw := h.1 (by decide) (by decide) (by decide) (by decide)
  exact ⟨hw.1.trans (by decide), hw.2.trans (by decide), h.2.2.2.2.2⟩

theorem resolveRestoreTab_congr (st1 st2 : DragNewTabState)
    (h1 : st1.start_selected_tab = st2.start_selected_tab)
    (h2 : st1.start_selected_index = st2.start_selected_index)
    (tabs : List TabId) :
    ResolveRestoreTab st1 tabs = ResolveRestoreTab st2 tabs := by
  unfold ResolveRestoreTab
  rw [h1, h2]

/-- Claim C10: the poll cycle's terminal action clears exactly `pending`,
`check_attempts`, `start_tabs` and `armed`; the window handle, mode, drop
point, start tab count and start-selected tab/index survive unchanged, the
restore-target resolution over the surviving fields is unaffected, and a
later restore-verification fire on the resulting state issues its re-select
command according to that resolution. -/
theorem poll_terminal_frame (g : GlobalState) (env : PollEnv) (t : TabId)
    (hp : g.st.pending = true) (ha : 0 < g.st.check_attempts)
    (hm : g.st.mode = 1 ∨ g.st.mode = 2) (hh : g.st.hwnd ≠ none)
    (hc : env.container_ok = true) (hs : g.st.start_tabs ≠ [])
    (hn : pollNewTab g.st.start_tabs env.tabs env.selected = some t)
    (hgo : ¬ (ensureSelectedOk env.selected env.select_ok env.selected_after t = false ∧
      (0 < GetMoveStepsToEnd env.tabs (some t) ∨ g.st.mode = 1))) :
    (DragNewTabTimerProc g env).1.st.pending = false ∧
    (DragNewTabTimerProc g env).1.st.check_attempts = 0 ∧
    (DragNewTabTimerProc g env).1.st.start_tabs = [] ∧
    (DragNewTabTimerProc g env).1.st.armed = false ∧
    (DragNewTabTimerProc g env).1.st.mode = g.st.mode ∧
    (DragNewTabTimerProc g env).1.st.hwnd = g.st.hwnd ∧
    (DragNewTabTimerProc g env).1.st.drop_point = g.st.drop_point ∧
    (DragNewTabTimerProc g env).1.st.start_tab_count = g.st.start_tab_count ∧
    (DragNewTabTimerProc g env).1.st.start_selected_tab = g.st.start_selected_tab ∧
    (DragNewTabTimerProc g env).1.st.start_selected_index = g.st.start_selected_index ∧
    (∀ tabs2, ResolveRestoreTab (DragNewTabTimerProc g env).1.st tabs2 =
      ResolveRestoreTab g.st tabs2) ∧
    (∀ (renv : RestoreEnv) (r : TabId),
      0 < (DragNewTabTimerProc g env).1.restore_attempts →
      (DragNewTabTimerProc g env).1.st.hwnd ≠ none → renv.container_ok = true →
      ResolveRestoreTab g.st renv.tabs = some r →
      (DragNewTabRestoreTimerProc (DragNewTabTimerProc g env).1 renv).2 =
        (if renv.selected = some r then [] else [Cmd.selectTab r])) := by
  obtain ⟨hst, hph⟩ := poll_terminal_fields g env t hp ha hm hh hc hs hn hgo
  have hcongr : ∀ tabs2, ResolveRestoreTab (DragNewTabTimerProc g env).1.st tabs2 =
      ResolveRestoreTab g.st tabs2 := by
    intro tabs2
    exact resolveRestoreTab_congr _ _ (by rw [hst]) (by rw [hst]) tabs2
  refine ⟨by rw [hst], by rw [hst], by rw [hst], by rw [hst], by rw [hst],
    by rw [hst], by rw [hst], by rw [hst], by rw [hst], by rw [hst], hcongr, ?_⟩
  intro renv r hra hrh hrc hrr
  exact (restore_fire_work (DragNewTabTimerProc g env).1 renv r hra hrh hrc
    ((hcongr renv.tabs).trans hrr)).1

/-- The spec's second example scenario as a global state: snapshot
`[10, 11, 12]` with `11` selected at index 1, mode 2, pending. -/
def c10g : GlobalState :=
  { st := { mode := 2, hwnd := some 1, drop_point := (0, 0), start_tab_count := 3,
            start_selected_tab := some 11, start_selected_index := 1,
            start_tabs := [10, 11, 12], check_attempts := 12, armed := false,
            pending := true },
    pollHandle := true, pollLive := 1, pollIntervalMs := 80,
    restoreHandle := false, restoreLive := 0, restoreIntervalMs := 0,
    restore_tab := none, restore_attempts := 0 }

/-- Host answers for the spec's second example: current list `[13, 10, 12]`
with the new tab `13` selected; after the two moves the list is `[10, 12, 13]`. -/
def c10env : PollEnv :=
  { container_ok := true, tabs := [13, 10, 12], selected := some 13,
    select_ok := true, selected_after := some 13, tabs_after_move := [10, 12, 13] }

/-- Witness for C10 at the spec's second example scenario. -/
theorem poll_terminal_frame_witness :
    (DragNewTabTimerProc c10g c10env).1.st.pending = false ∧
    (DragNewTabTimerProc c10g c10env).1.st.start_tabs = [] ∧
    (DragNewTabTimerProc c10g c10env).1.st.hwnd = c10g.st.hwnd ∧
    (DragNewTabTimerProc c10g c10env).1.st.start_selected_tab = c10g.st.start_selected_tab ∧
    (DragNewTabTimerProc c10g c10env).1.st.start_selected_index = c10g.st.start_selected_index := by
  have h := poll_terminal_frame c10g c10env 13 (by decide) (by decide) (by decide)
    (by decide) (by decide) (by decide) (by decide) (by decide)
  exact ⟨h.1, h.2.2.1, h.2.2.2.2.2.1, h.2.2.2.2.2.2.2.2.1, h.2.2.2.2.2.2.2.2.2.1⟩

/-- A pending mode-2 session whose new tab is already last
(`move_steps = 0`) but whose selection attempt fails. -/
def c3g : GlobalState :=
  { st := { mode := 2, hwnd := some 1, drop_point := (0, 0), start_tab_count := 1,
            start_selected_tab := some 0, start_selected_index := 0,
            start_tabs := [0], check_attempts := 5, armed := false,
            pending := true },
    pollHandle := true, pollLive := 1, pollIntervalMs := 80,
    restoreHandle := false, restoreLive := 0, restoreIntervalMs := 0,
    restore_tab := none, restore_attempts := 0 }

/-- Host answers for the C3 counterexample: the new tab `1` is the whole
list, tab `0` stays selected even after the select command. -/
def c3env : PollEnv :=
  { container_ok := true, tabs := [1], selected := some 0,
    select_ok := true, selected_after := some 0, tabs_after_move := [1] }

/-- Counterexample to C3 as stated: in mode 2 (`MoveToEndAndRestoreSelection`
— the mode the claim says forces a reschedule on selection failure) with the
selection attempt failed and no move needed, the poll fire does NOT
reschedule: it proceeds to the terminal action, ending the session. -/
theorem poll_selfail_mode2_no_resched :
    c3g.st.mode = 2 ∧
    pollNewTab c3g.st.start_tabs c3env.tabs c3env.selected = some 1 ∧
    ensureSelectedOk c3env.selected c3env.select_ok c3env.selected_after 1 = false ∧
    GetMoveStepsToEnd c3env.tabs (some 1) = 0 ∧
    (DragNewTabTimerProc c3g c3env).1.pollHandle = false ∧
    (DragNewTabTimerProc c3g c3env).1.st.pending = false := by
  decide

/-- Claim C3 (amended): when the selection attempt for the identified new tab
fails, the poll fire reschedules another attempt and issues no move commands
exactly when a move is still needed (`move_steps > 0`) or the mode is 1
(`MoveToEnd`) — not mode 2 as the claim stated; otherwise it proceeds to the
terminal action. -/
theorem poll_selfail_resched_iff (g : GlobalState) (env : PollEnv) (t : TabId)
    (hp : g.st.pending = true) (ha : 0 < g.st.check_attempts)
    (hm : g.st.mode = 1 ∨ g.st.mode = 2) (hh : g.st.hwnd ≠ none)
    (hc : env.container_ok = true) (hs : g.st.start_tabs ≠ [])
    (hn : pollNewTab g.st.start_tabs env.tabs env.selected = some t)
    (hf : ensureSelectedOk env.selected env.select_ok env.selected_after t = false) :
    (0 < GetMoveStepsToEnd env.tabs (some t) ∨ g.st.mode = 1 →
      (DragNewTabTimerProc g env).1.st.pending = true ∧
      (DragNewTabTimerProc g env).1.pollHandle = true ∧
      (DragNewTabTimerProc g env).2 = [Cmd.selectTab t]) ∧
    (¬ (0 < GetMoveStepsToEnd env.tabs (some t) ∨ g.st.mode = 1) →
      (DragNewTabTimerProc g env).1.st.pending = false ∧
      (DragNewTabTimerProc g env).1.pollHandle = false) := by
  constructor
  · intro hgo
    have hsel : ¬ (env.selected = some t) := by
      intro hx
      rw [ensureSelectedOk, if_pos hx] at hf
      exact Bool.true_eq_false ▸ hf
    rw [poll_selfail_resched g env t hp ha hm hh hc hs hn hf hgo]
    simp [hp, ensureSelectedCmds, hsel]
  · intro hgo
    obtain ⟨hst, hph⟩ := poll_terminal_fields g env t hp ha hm hh hc hs hn
      (by intro hand; exact hgo hand.2)
    exact ⟨by rw [hst], hph⟩

/-- A pending mode-1 session over snapshot `[0]`. -/
def c3wg : GlobalState := { c3g with st := { c3g.st with mode := 1 } }

/-- Host answers in which the new tab `1` is first of two tabs (one move
needed) and the select command fails. -/
def c3wenv : PollEnv :=
  { container_ok := true, tabs := [1, 0], selected := some 0,
    select_ok := false, selected_after := some 0, tabs_after_move := [1, 0] }

/-- Witness for the amended C3: failed selection with a move still needed
reschedules the poll and issues only the select attempt. -/
theorem poll_selfail_resched_iff_witness :
    (DragNewTabTimerProc c3wg c3wenv).1.st.pending = true ∧
    (DragNewTabTimerProc c3wg c3wenv).1.pollHandle = true ∧
    (DragNewTabTimerProc c3wg c3wenv).2 = [Cmd.selectTab 1] :=
  (poll_selfail_resched_iff c3wg c3wenv 1 (by decide) (by decide) (by decide)
    (by decide) (by decide) (by decide) (by decide) (by decide)).1 (by decide)

/-- An in-flight session with the restore timer outstanding and populated
session fields, used to refute C4 as stated. -/
def c4g : GlobalState :=
  { st := { mode := 2, hwnd := some 7, drop_point := (3, 4), start_tab_count := 2,
            start_selected_tab := some 9, start_selected_index := 0,
            start_tabs := [9, 8], check_attempts := 6, armed := true,
            pending := true },
    pollHandle := true, pollLive := 1, pollIntervalMs := 80,
    restoreHandle := true, restoreLive := 1, restoreIntervalMs := 80,
    restore_tab := some 9, restore_attempts := 3 }

/-- Counterexample to C4 as stated: a primary-button-down during an in-flight
session leaves the restore timer outstanding and leaves the window handle,
mode, drop point and start-selected fields uncleared. -/
theorem lbuttondown_not_full_reset :
    c4g.st.pending = true ∧ c4g.restoreHandle = true ∧
    (OnLButtonDown c4g).restoreHandle = true ∧
    (OnLButtonDown c4g).restoreLive = 1 ∧
    (OnLButtonDown c4g).restore_attempts = 3 ∧
    (OnLButtonDown c4g).st.hwnd = some 7 ∧
    (OnLButtonDown c4g).st.mode = 2 ∧
    (OnLButtonDown c4g).st.start_selected_tab = some 9 ∧
    (OnLButtonDown c4g).st.start_tab_count = 2 := by
  decide

/-- Claim C4 (amended): a primary-button-down event clears `armed`,
`pending`, `check_attempts` and the start snapshot and cancels (without
restarting) the poll timer; the remaining session fields (mode, window
handle, drop point, start tab count, start-selected tab and index), the
restore timer and the restore ticket are left untouched. -/
theorem lbuttondown_cancel (g : GlobalState) :
    (OnLButtonDown g).st.armed = false ∧
    (OnLButtonDown g).st.pending = false ∧
    (OnLButtonDown g).st.check_attempts = 0 ∧
    (OnLButtonDown g).st.start_tabs = [] ∧
    (OnLButtonDown g).pollHandle = false ∧
    (OnLButtonDown g).pollLive = g.pollLive - (if g.pollHandle then 1 else 0) ∧
    (OnLButtonDown g).st.mode = g.st.mode ∧
    (OnLButtonDown g).st.hwnd = g.st.hwnd ∧
    (OnLButtonDown g).st.drop_point = g.st.drop_point ∧
    (OnLButtonDown g).st.start_tab_count = g.st.start_tab_count ∧
    (OnLButtonDown g).st.start_selected_tab = g.st.start_selected_tab ∧
    (OnLButtonDown g).st.start_selected_index = g.st.start_selected_index ∧
    (OnLButtonDown g).restoreHandle = g.restoreHandle ∧
    (OnLButtonDown g).restoreLive = g.restoreLive ∧
    (OnLButtonDown g).restore_tab = g.restore_tab ∧
    (OnLButtonDown g).restore_attempts = g.restore_attempts := by
  unfold OnLButtonDown killPollTimer
  split <;> simp_all

/-- The timer-accounting invariant: the number of outstanding scheduler
timers of each kind is exactly one when the corresponding handle variable is
non-zero and zero otherwise. -/
def TimerInv (g : GlobalState) : Prop :=
  g.pollLive = (if g.pollHandle then 1 else 0) ∧
  g.restoreLive = (if g.restoreHandle then 1 else 0)

theorem timerInv_killRestore (g : GlobalState) (h : TimerInv g) :
    TimerInv (killRestoreTimer g) := by
  obtain ⟨h1, h2⟩ := h
  unfold killRestoreTimer TimerInv
  split <;> simp_all

theorem timerInv_reset (g : GlobalState) (h : TimerInv g) :
    TimerInv (ResetDragNewTabState g) := by
  unfold ResetDragNewTabState
  exact timerInv_killRestore _ h

theorem timerInv_queueRestore (g : GlobalState) (tab : Option TabId)
    (h : TimerInv g) : TimerInv (QueueDragNewTabRestore g tab) := by
  obtain ⟨h1, h2⟩ := h
  unfold QueueDragNewTabRestore killRestoreTimer TimerInv
  cases tab <;> cases hrh : g.restoreHandle <;> simp_all

theorem timerInv_init (g : GlobalState) (hwnd : Option Nat) (view_ok : Bool)
    (env : QueueEnv) (h : TimerInv g) :
    TimerInv (InitDragNewTabState g hwnd view_ok env).1 := by
  unfold InitDragNewTabState
  split
  · exact timerInv_reset g h
  · split
    · exact timerInv_reset g h
    · exact h

theorem timerInv_queueFinish (g : GlobalState) (pt : Int × Int)
    (h : TimerInv g) : TimerInv (QueueDragNewTabFinish g pt) := by
  obtain ⟨h1, h2⟩ := h
  unfold QueueDragNewTabFinish killRestoreTimer setPollTimer killPollTimer TimerInv
  cases hrh : g.restoreHandle <;> cases hph : g.pollHandle <;> simp_all

theorem timerInv_queueCheck (g : GlobalState) (hwnd : Option Nat)
    (view_ok : Bool) (pt : Int × Int) (env : QueueEnv) (h : TimerInv g) :
    TimerInv (QueueDragNewTabCheck g hwnd view_ok pt env) := by
  unfold QueueDragNewTabCheck
  split
  · exact timerInv_reset g h
  · dsimp only
    split
    · split
      · exact timerInv_init _ hwnd view_ok env h
      · exact timerInv_queueFinish _ pt (timerInv_init _ hwnd view_ok env h)
    · split
      · exact h
      · exact timerInv_queueFinish _ pt h

theorem timerInv_arm (g : GlobalState) (hwnd : Option Nat)
    (view_ok on_tab_bar lbutton : Bool) (env : QueueEnv) (h : TimerInv g) :
    TimerInv (ArmOnMouseMove g hwnd view_ok on_tab_bar lbutton env) := by
  unfold ArmOnMouseMove
  split
  · dsimp only
    split
    · exact timerInv_init _ hwnd view_ok env h
    · exact h
  · exact h

theorem timerInv_up (g : GlobalState) (hwnd : Option Nat)
    (view_ok on_tab_bar on_new_tab_button drag : Bool) (pt : Int × Int)
    (env : QueueEnv) (h : TimerInv g) :
    TimerInv (OnLButtonUp g hwnd view_ok on_tab_bar on_new_tab_button drag pt env) := by
  unfold OnLButtonUp
  split
  · exact timerInv_queueCheck g hwnd view_ok pt env h
  · exact h

theorem timerInv_down (g : GlobalState) (h : TimerInv g) :
    TimerInv (OnLButtonDown g) := by
  obtain ⟨h1, h2⟩ := h
  unfold OnLButtonDown killPollTimer TimerInv
  cases hph : g.pollHandle <;> simp_all

theorem timerInv_setPoll (g : GlobalState) (h : TimerInv g)
    (hh : g.pollHandle = false) : TimerInv (setPollTimer g) := by
  obtain ⟨h1, h2⟩ := h
  unfold setPollTimer TimerInv
  simp_all

theorem timerInv_killFiring (g : GlobalState) (h : TimerInv g) :
    TimerInv (killFiringRestore g) := by
  obtain ⟨h1, h2⟩ := h
  unfold killFiringRestore TimerInv
  refine ⟨by simpa using h1, ?_⟩
  simp only []
  split at h2 <;> simp_all

theorem poll_container_invalid (g : GlobalState) (env : PollEnv)
    (hp : g.st.pending = true) (ha : 0 < g.st.check_attempts)
    (hm : g.st.mode = 1 ∨ g.st.mode = 2)
    (hcont : ¬ (g.st.hwnd ≠ none ∧ env.container_ok = true)) :
    (DragNewTabTimerProc g env).1 =
      ResetDragNewTabState { g with pollLive := g.pollLive - 1, pollHandle := false } := by
  have ha2 : ¬ (g.st.check_attempts ≤ 0) := by omega
  have hm2 : ¬ ¬ (g.st.mode = 1 ∨ g.st.mode = 2) := not_not_intro hm
  simp [DragNewTabTimerProc, hp, ha2, hm2, hcont, ResetDragNewTabState,
    killRestoreTimer]

theorem poll_snapshot_empty (g : GlobalState) (env : PollEnv)
    (hp : g.st.pending = true) (ha : 0 < g.st.check_attempts)
    (hm : g.st.mode = 1 ∨ g.st.mode = 2) (hh : g.st.hwnd ≠ none)
    (hc : env.container_ok = true) (hs : g.st.start_tabs = []) :
    (DragNewTabTimerProc g env).1 =
      ResetDragNewTabState { g with pollLive := g.pollLive - 1, pollHandle := false } := by
  have ha2 : ¬ (g.st.check_attempts ≤ 0) := by omega
  have hm2 : ¬ ¬ (g.st.mode = 1 ∨ g.st.mode = 2) := not_not_intro hm
  simp [DragNewTabTimerProc, hp, ha2, hm2, hh, hc, hs, ResetDragNewTabState,
    killRestoreTimer]

theorem timerInv_poll_terminal (g : GlobalState) (env : PollEnv) (t : TabId)
    (h : TimerInv g)
    (hp : g.st.pending = true) (ha : 0 < g.st.check_attempts)
    (hm : g.st.mode = 1 ∨ g.st.mode = 2) (hh : g.st.hwnd ≠ none)
    (hc : env.container_ok = true) (hs : g.st.start_tabs ≠ [])
    (hn : pollNewTab g.st.start_tabs env.tabs env.selected = some t)
    (hgo : ¬ (ensureSelectedOk env.selected env.select_ok env.selected_after t = false ∧
      (0 < GetMoveStepsToEnd env.tabs (some t) ∨ g.st.mode = 1))) :
    TimerInv (DragNewTabTimerProc g env).1 := by
  have hE : TimerInv { g with pollLive := g.pollLive - 1, pollHandle := false } := by
    obtain ⟨h1, h2⟩ := h
    refine ⟨?_, by simpa using h2⟩
    simp only []
    split at h1 <;> simp_all
  have ha2 : ¬ (g.st.check_attempts ≤ 0) := by omega
  have hm2 : ¬ ¬ (g.st.mode = 1 ∨ g.st.mode = 2) := not_not_intro hm
  unfold DragNewTabTimerProc
  simp only [hp, ha2, hm2, hh, hc, List.isEmpty_iff, hs, hn, ne_eq,
    not_false_eq_true, and_true, true_and, not_true_eq_false, if_false, if_true,
    Bool.true_eq_false, ite_false, ite_true]
  rw [if_neg (by simpa using hgo)]
  repeat' split
  all_goals first
    | exact timerInv_queueRestore _ _ hE
    | exact hE

theorem timerInv_pollFire (g : GlobalState) (env : PollEnv) (h : TimerInv g) :
    TimerInv (DragNewTabTimerProc g env).1 := by
  have hE : TimerInv { g with pollLive := g.pollLive - 1, pollHandle := false } := by
    obtain ⟨h1, h2⟩ := h
    refine ⟨?_, by simpa using h2⟩
    simp only []
    split at h1 <;> simp_all
  by_cases hp : g.st.pending = true
  case neg =>
    rw [poll_not_pending g env (by simpa using hp)]
    exact hE
  case pos =>
  by_cases ha : g.st.check_attempts ≤ 0
  case pos =>
    rw [poll_exhausted g env hp ha]
    exact timerInv_reset _ hE
  case neg =>
  by_cases hm : g.st.mode = 1 ∨ g.st.mode = 2
  case neg =>
    rw [(poll_mode_disabled g env hp (by omega) hm).1]
    exact timerInv_reset _ hE
  case pos =>
  by_cases hcont : g.st.hwnd ≠ none ∧ env.container_ok = true
  case neg =>
    rw [poll_container_invalid g env hp (by omega) hm hcont]
    exact timerInv_reset _ hE
  case pos =>
  by_cases hs : g.st.start_tabs = []
  case pos =>
    rw [poll_snapshot_empty g env hp (by omega) hm hcont.1 hcont.2 hs]
    exact timerInv_reset _ hE
  case neg =>
  cases hn : pollNewTab g.st.start_tabs env.tabs env.selected with
  | none =>
    rw [poll_nofind g env hp (by omega) hm hcont.1 hcont.2 hs hn]
    exact timerInv_setPoll _ hE rfl
  | some t =>
    by_cases hgo : ensureSelectedOk env.selected env.select_ok env.selected_after t = false ∧
        (0 < GetMoveStepsToEnd env.tabs (some t) ∨ g.st.mode = 1)
    case pos =>
      rw [poll_selfail_resched g env t hp (by omega) hm hcont.1 hcont.2 hs hn
        hgo.1 hgo.2]
      exact timerInv_setPoll _ hE rfl
    case neg =>
      exact timerInv_poll_terminal g env t h hp (by omega) hm hcont.1 hcont.2 hs hn hgo

theorem timerInv_restoreFire (g : GlobalState) (env : RestoreEnv) (h : TimerInv g) :
    TimerInv (DragNewTabRestoreTimerProc g env).1 := by
  unfold DragNewTabRestoreTimerProc
  dsimp only
  repeat' split
  all_goals first
    | exact timerInv_killFiring _ h
    | exact h

theorem timerInv_reachable (g : GlobalState) (h : Reachable g) : TimerInv g := by
  induction h with
  | init => exact ⟨rfl, rfl⟩
  | arm g hg hwnd view_ok on_tab_bar lbutton env ih =>
    exact timerInv_arm g hwnd view_ok on_tab_bar lbutton env ih
  | up g hg hwnd view_ok on_tab_bar on_new_tab_button drag pt env ih =>
    exact timerInv_up g hwnd view_ok on_tab_bar on_new_tab_button drag pt env ih
  | down g hg ih => exact timerInv_down g ih
  | poll g hg hl env ih => exact timerInv_pollFire g env ih
  | restore g hg hl env ih => exact timerInv_restoreFire g env ih

/-- Claim C8: in every reachable state, at most one poll timer and at most
one restore timer are outstanding system-wide.  The induction goes through
every entry point; each one kills the stored handle of a timer kind before
creating a new timer of that kind, which is what keeps the per-kind count at
the handle's value. -/
theorem timers_at_most_one (g : GlobalState) (h : Reachable g) :
    g.pollLive ≤ 1 ∧ g.restoreLive ≤ 1 := by
  obtain ⟨h1, h2⟩ := timerInv_reachable g h
  constructor
  · rw [h1]; split <;> omega
  · rw [h2]; split <;> omega

/-- Witness for C8 at the process-start state. -/
theorem timers_at_most_one_witness :
    initialGlobal.pollLive ≤ 1 ∧ initialGlobal.restoreLive ≤ 1 :=
  timers_at_most_one initialGlobal Reachable.init

theorem down_pending (g : GlobalState) : (OnLButtonDown g).st.pending = false := by
  unfold OnLButtonDown killPollTimer
  dsimp only

theorem init_bad_mode (g : GlobalState) (hwnd : Option Nat) (view_ok : Bool)
    (env : QueueEnv) (hm : ¬ (env.mode = 1 ∨ env.mode = 2)) :
    InitDragNewTabState g hwnd view_ok env = (ResetDragNewTabState g, false) := by
  unfold InitDragNewTabState
  rw [if_pos hm]

theorem init_bad_hwnd (g : GlobalState) (hwnd : Option Nat) (view_ok : Bool)
    (env : QueueEnv) (hm : env.mode = 1 ∨ env.mode = 2)
    (hh : hwnd = none ∨ view_ok = false) :
    InitDragNewTabState g hwnd view_ok env = (ResetDragNewTabState g, false) := by
  unfold InitDragNewTabState
  rw [if_neg (not_not_intro hm), if_pos hh]

theorem init_ok (g : GlobalState) (hwnd : Option Nat) (view_ok : Bool)
    (env : QueueEnv) (hm : env.mode = 1 ∨ env.mode = 2)
    (hh : ¬ (hwnd = none ∨ view_ok = false)) :
    InitDragNewTabState g hwnd view_ok env =
      ({ g with st :=
          { g.st with
              mode := env.mode
              hwnd := hwnd
              start_tab_count := env.tab_count
              start_selected_tab := env.selected
              start_tabs := env.tabs
              start_selected_index := GetTabIndex env.tabs env.selected } },
       !env.tabs.isEmpty) := by
  unfold InitDragNewTabState
  rw [if_neg (not_not_intro hm), if_neg hh]

theorem init_pending (g : GlobalState) (hwnd : Option Nat) (view_ok : Bool)
    (env : QueueEnv) :
    (InitDragNewTabState g hwnd view_ok env).1.st.pending = g.st.pending ∨
    (InitDragNewTabState g hwnd view_ok env).1.st.pending = false := by
  by_cases hm : env.mode = 1 ∨ env.mode = 2
  · by_cases hh : hwnd = none ∨ view_ok = false
    · rw [init_bad_hwnd g hwnd view_ok env hm hh]
      right
      simp [emptyDragState]
    · rw [init_ok g hwnd view_ok env hm hh]
      left
      rfl
  · rw [init_bad_mode g hwnd view_ok env hm]
    right
    simp [emptyDragState]

theorem init_success (g : GlobalState) (hwnd : Option Nat) (view_ok : Bool)
    (env : QueueEnv) (h2 : (InitDragNewTabState g hwnd view_ok env).2 = true) :
    (InitDragNewTabState g hwnd view_ok env).1.st.start_tabs = env.tabs ∧
    env.tabs ≠ [] ∧
    (InitDragNewTabState g hwnd view_ok env).1.st.pending = g.st.pending := by
  by_cases hm : env.mode = 1 ∨ env.mode = 2
  · by_cases hh : hwnd = none ∨ view_ok = false
    · rw [init_bad_hwnd g hwnd view_ok env hm hh] at h2
      exact absurd h2 (by simp)
    · rw [init_ok g hwnd view_ok env hm hh] at h2 ⊢
      refine ⟨rfl, ?_, rfl⟩
      simp only [Bool.not_eq_true'] at h2
      simp only [ne_eq, ← List.isEmpty_iff, h2]
      simp
  · rw [init_bad_mode g hwnd view_ok env hm] at h2
    exact absurd h2 (by simp)

theorem queueFinish_st (g : GlobalState) (pt : Int × Int) :
    (QueueDragNewTabFinish g pt).st.pending = true ∧
    (QueueDragNewTabFinish g pt).st.start_tabs = g.st.start_tabs ∧
    (QueueDragNewTabFinish g pt).st.check_attempts = kDragNewTabMaxAttempts := by
  unfold QueueDragNewTabFinish
  simp

theorem queue_pending_snapshot (g : GlobalState) (hwnd : Option Nat)
    (view_ok : Bool) (pt : Int × Int) (env : QueueEnv)
    (hp : g.st.pending = false) :
    (QueueDragNewTabCheck g hwnd view_ok pt env).st.pending = true →
    (QueueDragNewTabCheck g hwnd view_ok pt env).st.start_tabs ≠ [] := by
  unfold QueueDragNewTabCheck
  split
  · intro hpend
    rw [reset_st] at hpend
    exact absurd hpend (by simp [emptyDragState])
  · dsimp only
    split
    · split
      · intro hpend
        rcases init_pending { g with st := { g.st with mode := env.mode } }
            hwnd view_ok env with he | he
        · rw [hpend] at he
          exact absurd he.symm (by simp [hp])
        · rw [hpend] at he
          exact absurd he.symm (by simp)
      · intro _
        have hs := init_success { g with st := { g.st with mode := env.mode } }
          hwnd view_ok env (by simp_all)
        rw [(queueFinish_st _ pt).2.1, hs.1]
        exact hs.2.1
    · split
      · simp_all
      · intro _
        rw [(queueFinish_st _ pt).2.1]
        simp only [List.isEmpty_iff] at *
        simp_all

theorem arm_pending (g : GlobalState) (hwnd : Option Nat)
    (view_ok on_tab_bar lbutton : Bool) (env : QueueEnv) :
    (ArmOnMouseMove g hwnd view_ok on_tab_bar lbutton env).st.pending = g.st.pending ∨
    (ArmOnMouseMove g hwnd view_ok on_tab_bar lbutton env).st.pending = false := by
  unfold ArmOnMouseMove
  split
  · dsimp only
    split
    · rcases init_pending { g with st := { g.st with armed := true } }
          hwnd view_ok env with he | he
      · left; exact he
      · right; exact he
    · left; rfl
  · left; rfl

theorem up_pending_snapshot (g : GlobalState) (hwnd : Option Nat)
    (view_ok on_tab_bar on_new_tab_button drag : Bool) (pt : Int × Int)
    (env : QueueEnv) (hp : g.st.pending = false) :
    (OnLButtonUp g hwnd view_ok on_tab_bar on_new_tab_button drag pt env).st.pending = true →
    (OnLButtonUp g hwnd view_ok on_tab_bar on_new_tab_button drag pt env).st.start_tabs ≠ [] := by
  unfold OnLButtonUp
  split
  · dsimp only
    intro hpend
    exact queue_pending_snapshot g hwnd view_ok pt env hp hpend
  · intro hpend
    exact absurd hpend (by simp [hp])

theorem poll_pending_snapshot (g : GlobalState) (env : PollEnv) :
    (DragNewTabTimerProc g env).1.st.pending = true →
    (DragNewTabTimerProc g env).1.st.start_tabs ≠ [] := by
  by_cases hp : g.st.pending = true
  case neg =>
    rw [poll_not_pending g env (by simpa using hp)]
    intro hpend
    exact absurd hpend (by simpa using hp)
  case pos =>
  by_cases ha : g.st.check_attempts ≤ 0
  case pos =>
    rw [poll_exhausted g env hp ha]
    simp [emptyDragState]
  case neg =>
  by_cases hm : g.st.mode = 1 ∨ g.st.mode = 2
  case neg =>
    rw [(poll_mode_disabled g env hp (by omega) hm).1]
    simp [emptyDragState]
  case pos =>
  by_cases hcont : g.st.hwnd ≠ none ∧ env.container_ok = true
  case neg =>
    rw [poll_container_invalid g env hp (by omega) hm hcont]
    simp [emptyDragState]
  case pos =>
  by_cases hs : g.st.start_tabs = []
  case pos =>
    rw [poll_snapshot_empty g env hp (by omega) hm hcont.1 hcont.2 hs]
    simp [emptyDragState]
  case neg =>
  cases hn : pollNewTab g.st.start_tabs env.tabs env.selected with
  | none =>
    rw [poll_nofind g env hp (by omega) hm hcont.1 hcont.2 hs hn]
    intro _
    simpa using hs
  | some t =>
    by_cases hgo : ensureSelectedOk env.selected env.select_ok env.selected_after t = false ∧
        (0 < GetMoveStepsToEnd env.tabs (some t) ∨ g.st.mode = 1)
    case pos =>
      rw [poll_selfail_resched g env t hp (by omega) hm hcont.1 hcont.2 hs hn
        hgo.1 hgo.2]
      intro _
      simpa using hs
    case neg =>
      obtain ⟨hst, _⟩ := poll_terminal_fields g env t hp (by omega) hm hcont.1
        hcont.2 hs hn hgo
      rw [hst]
      simp

/-- Claim C7 (amended): `startTabs` is non-empty whenever `pending` is true,
in every state reachable by entry-point sequences in which arm and drop/queue
events occur only while no session is pending — the discipline the physical
button-down/up ordering enforces, since a button-down clears `pending` before
any further move or release is delivered.  (Unrestricted sequences can break
the invariant; see the counterexample.) -/
theorem drag_pending_snapshot_inv (g : GlobalState) (h : ReachableOrdered g) :
    g.st.pending = true → g.st.start_tabs ≠ [] := by
  induction h with
  | init =>
    intro hp
    exact absurd hp (by decide)
  | arm g hg hppre hwnd view_ok on_tab_bar lbutton env ih =>
    intro hpend
    rcases arm_pending g hwnd view_ok on_tab_bar lbutton env with he | he
    · rw [hpend] at he
      rw [hppre] at he
      exact absurd he.symm (by simp)
    · rw [hpend] at he
      exact absurd he.symm (by simp)
  | up g hg hppre hwnd view_ok on_tab_bar on_new_tab_button drag pt env ih =>
    exact up_pending_snapshot g hwnd view_ok on_tab_bar on_new_tab_button drag
      pt env hppre
  | down g hg ih =>
    intro hpend
    exact absurd hpend (by simp [down_pending])
  | poll g hg hl env ih => exact poll_pending_snapshot g env
  | restore g hg hl env ih =>
    intro hpend
    rw [restoreProc_st g env] at hpend ⊢
    exact ih hpend

/-- Queue environment of the first drop: window 1 with one tab `5`. -/
def c7env1 : QueueEnv :=
  { mode := 1, tab_count := 1, selected := some 5, tabs := [5] }

/-- Queue environment of the second drop: window 2 whose tab query comes back
empty. -/
def c7env2 : QueueEnv :=
  { mode := 1, tab_count := 0, selected := none, tabs := [] }

/-- State after the first drop: a pending session on window 1. -/
def c7g1 : GlobalState :=
  OnLButtonUp initialGlobal (some 1) true true false true (0, 0) c7env1

/-- State after a second drop on a different window whose tab list reads
empty: the re-binding fails after overwriting the snapshot, leaving
`pending = true` with an empty `start_tabs`. -/
def c7g2 : GlobalState :=
  OnLButtonUp c7g1 (some 2) true true false true (0, 0) c7env2

/-- Counterexample to C7 as stated over arbitrary entry-point sequences: two
consecutive drop/queue events (no button-down between them), the second on a
different window with an empty tab query, reach a state with `pending = true`
and an empty start snapshot. -/
theorem pending_with_empty_snapshot_reachable :
    Reachable c7g2 ∧ c7g2.st.pending = true ∧ c7g2.st.start_tabs = [] :=
  ⟨Reachable.up c7g1
      (Reachable.up initialGlobal Reachable.init (some 1) true true false true
        (0, 0) c7env1)
      (some 2) true true false true (0, 0) c7env2,
   by decide, by decide⟩

/-- Witness for the amended C7: the pending session after one well-ordered
drop has a non-empty snapshot. -/
theorem drag_pending_snapshot_inv_witness :
    c7g1.st.pending = true ∧ c7g1.st.start_tabs ≠ [] :=
  ⟨by decide,
   drag_pending_snapshot_inv c7g1
     (ReachableOrdered.up initialGlobal ReachableOrdered.init (by decide)
       (some 1) true true false true (0, 0) c7env1)
     (by decide)⟩
